import Mathlib

/-!
Shallow embedding of the pip-playtomicapi client library.

The repository is a thin HTTP client: `src/api.py` (class `PlaytomicClient`),
`src/client.py` (class `Client`, a near-duplicate differing in `_get_headers`),
and two endpoint helpers (`src/endpoints/tenant.py`, `src/endpoints/tournament.py`).

Modelling choices:
- The HTTP transport (`requests.Session`) is a scripted oracle: a `World` holds
  the list of remaining `TransportEvent`s (each HTTP call consumes one) and an
  append-only log of the `HttpRequest`s issued, so call counts and request shapes
  are observable.
- Response bodies are already-parsed JSON values (`Json`); the endpoints under
  test always return parseable JSON, so `response.json()` never fails in the model.
- Python exceptions become `Except PyError`: `requests.HTTPError` raised by
  `raise_for_status` (which fires exactly for statuses 400..599) is
  `PyError.httpError status`; any other `requests.RequestException`
  (network-level failure) is `PyError.requestException`; a plain Python
  `Exception`/`AttributeError` is `PyError.exception msg`.
- State mutation (`self.access_token = ...`) is explicit state passing: each
  operation returns `(result, new client state, new world)`; on an exception the
  state reached so far is returned, as in Python.
- Token fields: `data.get("access_token")` yields Python `None` both when the key
  is absent and when its JSON value is `null`; the API's token values are strings,
  so the stored tokens are `Option String` (a present non-string token value is
  not modelled and collapses to `none`).
-/

namespace Playtomic

/-- A parsed JSON value (the subset this API exchanges). -/
inductive Json where
  | null
  | bool (b : Bool)
  | num (n : Int)
  | str (s : String)
  | arr (elems : List Json)
  | obj (fields : List (String × Json))

/-- First-match lookup in a parsed JSON object's field list (Python dict keys are
unique, so first-match agrees with dict lookup). -/
def jsonLookup : List (String × Json) → String → Option Json
  | [], _ => none
  | (k, v) :: rest, key => if k = key then some v else jsonLookup rest key

/-- Embedding of `data.get(key)` for a token field: absent key and JSON `null` both give Python
`None`; a string value is returned. (Token values in this API are strings.) -/
def getTokenField (fields : List (String × Json)) (key : String) : Option String :=
  match jsonLookup fields key with
  | some (Json.str s) => some s
  | _ => none

/-- Embedding of the refresh payload value: `requests` serialises Python `None`
as JSON `null`, so an absent token becomes `Json.null`. -/
def optTokenToJson : Option String → Json
  | none => Json.null
  | some s => Json.str s

/-- Python errors the source can raise. -/
inductive PyError where
  | httpError (status : Nat)
  | requestException
  | exception (msg : String)

/-- One scripted transport outcome: an HTTP response (status and parsed body) or a
network-level failure (`requests.RequestException` that is not an `HTTPError`). -/
inductive TransportEvent where
  | response (status : Nat) (body : Json)
  | netFailure

/-- A record of one issued HTTP request: method, full URL, `json=` payload and
headers. (The call sites never pass `data=` or `params=`, so they are omitted.) -/
structure HttpRequest where
  method : String
  url : String
  payload : Option Json
  headers : List (String × String)

/-- An HTTP response as seen by the client after `raise_for_status` did not fire. -/
structure HttpResponse where
  status : Nat
  body : Json

/-- The transport: the script of remaining responses and the log of issued calls. -/
structure World where
  script : List TransportEvent
  calls : List HttpRequest

/-- The mutable fields of `PlaytomicClient` (`src/api.py` lines 15-21): credentials
and the current token pair. The `requests.Session` handle is the `World`. -/
structure ClientState where
  email : String
  password : String
  access_token : Option String
  refresh_token : Option String

def BASE_URL : String := "https://api.playtomic.io"

/-- Python truthiness of `self.access_token` (`Optional[str]`): `None` and the
empty string are falsy. -/
def tokenFalsy : Option String → Bool
  | none => true
  | some s => s = ""

namespace PlaytomicClient

/-- Embedding of `PlaytomicClient._get_headers` (`src/api.py` lines 36-45): if
`not self.access_token` return only the content-type header, else the Bearer
authorization header plus the content-type header. -/
def _get_headers (st : ClientState) : List (String × String) :=
  if tokenFalsy st.access_token then
    [("Content-Type", "application/json")]
  else
    [("Authorization", "Bearer " ++ st.access_token.getD ""),
     ("Content-Type", "application/json")]

/-- Embedding of `PlaytomicClient._send_http_request` (`src/api.py` lines 47-59): issue the
request on the session, then `raise_for_status` (raises `HTTPError` exactly for
statuses 400..599); a network-level `RequestException` propagates. The issued
request is logged before the outcome is known; an exhausted script is a network
failure. -/
def _send_http_request (url method : String) (json : Option Json)
    (headers : List (String × String)) (w : World) :
    Except PyError HttpResponse × World :=
  let w1 : World := { w with calls := w.calls ++ [⟨method, url, json, headers⟩] }
  match w1.script with
  | [] => (Except.error PyError.requestException, w1)
  | ev :: rest =>
    let w2 : World := { w1 with script := rest }
    match ev with
    | TransportEvent.netFailure => (Except.error PyError.requestException, w2)
    | TransportEvent.response s b =>
      if 400 ≤ s ∧ s < 600 then (Except.error (PyError.httpError s), w2)
      else (Except.ok ⟨s, b⟩, w2)

/-- Embedding of `PlaytomicClient._authenticate` (`src/api.py` lines 23-34): POST the
credentials to `/v3/auth/login`; on success store `data.get("access_token")` and
`data.get("refresh_token")`. A non-dict body would make `data.get` raise
`AttributeError` in Python. -/
def _authenticate (st : ClientState) (w : World) :
    Except PyError Unit × ClientState × World :=
  let auth_url := BASE_URL ++ "/v3/auth/login"
  let payload := Json.obj [("email", Json.str st.email), ("password", Json.str st.password)]
  let headers := [("Content-Type", "application/json")]
  match _send_http_request auth_url "POST" (some payload) headers w with
  | (Except.error e, w') => (Except.error e, st, w')
  | (Except.ok resp, w') =>
    match resp.body with
    | Json.obj fields =>
      (Except.ok (),
       { st with access_token := getTokenField fields "access_token",
                 refresh_token := getTokenField fields "refresh_token" }, w')
    | _ => (Except.error (PyError.exception "AttributeError"), st, w')

/-- Embedding of `PlaytomicClient._refresh_access_token` (`src/api.py` lines 80-91): POST
`{"refresh_token": self.refresh_token}` to `/v3/auth/refresh`; on success store
both token fields from the body. There is no precondition check: a `None`
refresh token is serialised as JSON `null` and the request is issued anyway. -/
def _refresh_access_token (st : ClientState) (w : World) :
    Except PyError Unit × ClientState × World :=
  let refresh_url := BASE_URL ++ "/v3/auth/refresh"
  let payload := Json.obj [("refresh_token", optTokenToJson st.refresh_token)]
  let headers := [("Content-Type", "application/json")]
  match _send_http_request refresh_url "POST" (some payload) headers w with
  | (Except.error e, w') => (Except.error e, st, w')
  | (Except.ok resp, w') =>
    match resp.body with
    | Json.obj fields =>
      (Except.ok (),
       { st with access_token := getTokenField fields "access_token",
                 refresh_token := getTokenField fields "refresh_token" }, w')
    | _ => (Except.error (PyError.exception "AttributeError"), st, w')

/-- Embedding of `PlaytomicClient.send_request` (`src/api.py` lines 61-78): build headers,
issue the call; on a caught `HTTPError` with status 401 refresh the token,
rebuild headers and reissue once; any other `HTTPError` is re-raised and any
other exception propagates uncaught. On success return the parsed body. -/
def send_request (st : ClientState) (method endpoint : String)
    (payload : Option Json) (w : World) :
    Except PyError Json × ClientState × World :=
  let url := BASE_URL ++ endpoint
  let headers := _get_headers st
  match _send_http_request url method payload headers w with
  | (Except.ok resp, w') => (Except.ok resp.body, st, w')
  | (Except.error e, w') =>
    match e with
    | PyError.httpError code =>
      if code = 401 then
        match _refresh_access_token st w' with
        | (Except.error e2, st', w'') => (Except.error e2, st', w'')
        | (Except.ok _, st', w'') =>
          match _send_http_request url method payload (_get_headers st') w'' with
          | (Except.ok resp, w3) => (Except.ok resp.body, st', w3)
          | (Except.error e2, w3) => (Except.error e2, st', w3)
      else (Except.error (PyError.httpError code), st, w')
    | e' => (Except.error e', st, w')

/-- Embedding of `PlaytomicClient.__init__` (`src/api.py` lines 15-21): store the credentials,
initialise both tokens to `None`, then call `_authenticate` eagerly; if it
raises, construction fails. -/
def init (email password : String) (w : World) : Except PyError ClientState × World :=
  let st : ClientState := ⟨email, password, none, none⟩
  match _authenticate st w with
  | (Except.ok _, st', w') => (Except.ok st', w')
  | (Except.error e, _, w') => (Except.error e, w')

end PlaytomicClient

namespace Client

/-- Embedding of `Client._get_headers` (`src/client.py` lines 46-58): unlike the `api.py`
variant, this one raises `Exception("Authentication token is missing")` when
`not self.access_token`. -/
def _get_headers (st : ClientState) : Except PyError (List (String × String)) :=
  if tokenFalsy st.access_token then
    Except.error (PyError.exception "Authentication token is missing")
  else
    Except.ok [("Authorization", "Bearer " ++ st.access_token.getD ""),
               ("Content-Type", "application/json")]

/-- Embedding of `Client._send_http_request` (`src/client.py` lines 60-84): the
body is character-identical to `PlaytomicClient._send_http_request`
(`src/api.py` lines 47-59), so the embedding is shared. -/
def _send_http_request : String → String → Option Json → List (String × String) →
    World → Except PyError HttpResponse × World :=
  PlaytomicClient._send_http_request

/-- Embedding of `Client._refresh_access_token` (`src/client.py` lines 114-129):
the body is character-identical to `PlaytomicClient._refresh_access_token`
(`src/api.py` lines 80-91), so the embedding is shared. -/
def _refresh_access_token : ClientState → World →
    Except PyError Unit × ClientState × World :=
  PlaytomicClient._refresh_access_token

/-- Embedding of `Client.send_request` (`src/client.py` lines 86-112): same
control flow as `PlaytomicClient.send_request` except that `_get_headers` can
raise — both before the first attempt (no access token) and after a refresh
whose stored access token is falsy, in which case the exception propagates
before the reissue. -/
def send_request (st : ClientState) (method endpoint : String)
    (payload : Option Json) (w : World) :
    Except PyError Json × ClientState × World :=
  let url := BASE_URL ++ endpoint
  match _get_headers st with
  | Except.error e => (Except.error e, st, w)
  | Except.ok headers =>
    match _send_http_request url method payload headers w with
    | (Except.ok resp, w') => (Except.ok resp.body, st, w')
    | (Except.error e, w') =>
      match e with
      | PyError.httpError code =>
        if code = 401 then
          match _refresh_access_token st w' with
          | (Except.error e2, st2, w2) => (Except.error e2, st2, w2)
          | (Except.ok _, st2, w2) =>
            match _get_headers st2 with
            | Except.error e2 => (Except.error e2, st2, w2)
            | Except.ok headers2 =>
              match _send_http_request url method payload headers2 w2 with
              | (Except.ok resp, w3) => (Except.ok resp.body, st2, w3)
              | (Except.error e2, w3) => (Except.error e2, st2, w3)
        else (Except.error (PyError.httpError code), st, w')
      | e' => (Except.error e', st, w')

end Client

namespace Tenant

/-- Embedding of `Tenant.get` (`src/endpoints/tenant.py`): a GET on the tenant path. -/
def get (client : ClientState) (tenant_id : String) (w : World) :
    Except PyError Json × ClientState × World :=
  let endpoint := "/v1/tenants/" ++ tenant_id
  PlaytomicClient.send_request client "GET" endpoint none w

/-- Embedding of `Tenant.create` (`src/endpoints/tenant.py`): a POST of the tenant data. -/
def create (client : ClientState) (tenant_data : Json) (w : World) :
    Except PyError Json × ClientState × World :=
  let endpoint := "/v2/tenants"
  PlaytomicClient.send_request client "POST" endpoint (some tenant_data) w

end Tenant

namespace TournamentEndpoint

/-- Embedding of `TournamentEndpoint.get` (`src/endpoints/tournament.py`): a GET on the tournament path. -/
def get (client : ClientState) (tournament_id : String) (w : World) :
    Except PyError Json × ClientState × World :=
  let endpoint := "/v2/tournaments/" ++ tournament_id
  PlaytomicClient.send_request client "GET" endpoint none w

/-- Embedding of `TournamentEndpoint.create` (`src/endpoints/tournament.py`): a POST of the tournament data. -/
def create (client : ClientState) (tournament_data : Json) (w : World) :
    Except PyError Json × ClientState × World :=
  let endpoint := "/v2/tournaments"
  PlaytomicClient.send_request client "POST" endpoint (some tournament_data) w

end TournamentEndpoint

/-- Whether an `Except` result is a success, as a Boolean observable. -/
def resultOk {α : Type} : Except PyError α → Bool
  | Except.ok _ => true
  | Except.error _ => false

/-- The outcome `_send_http_request` produces for a given scripted event (or for
an exhausted script), as seen by `send_request`'s caller: the parsed body on a
non-error status, `httpError` on 400..599, `requestException` on network failure. -/
def attemptOutcome : Option TransportEvent → Except PyError Json
  | some (TransportEvent.response s b) =>
    if 400 ≤ s ∧ s < 600 then Except.error (PyError.httpError s) else Except.ok b
  | some TransportEvent.netFailure => Except.error PyError.requestException
  | none => Except.error PyError.requestException

/-- Every `_send_http_request` logs exactly the one request it issues, whatever
the outcome. -/
theorem calls_of_send_http (url method : String) (json : Option Json)
    (headers : List (String × String)) (w : World) :
    (PlaytomicClient._send_http_request url method json headers w).2.calls =
      w.calls ++ [⟨method, url, json, headers⟩] := by
  rcases w with ⟨script, calls⟩
  cases script with
  | nil => rfl
  | cons ev rest =>
    cases ev with
    | netFailure => rfl
    | response s b =>
      simp only [PlaytomicClient._send_http_request]
      split <;> rfl

/-- Lemma: `_refresh_access_token` issues exactly one HTTP request: a POST to the
refresh path carrying the current (possibly `None`) refresh token, whatever the
outcome. -/
theorem refresh_calls_eq (st : ClientState) (w : World) :
    (PlaytomicClient._refresh_access_token st w).2.2.calls =
      w.calls ++ [⟨"POST", BASE_URL ++ "/v3/auth/refresh",
                   some (Json.obj [("refresh_token", optTokenToJson st.refresh_token)]),
                   [("Content-Type", "application/json")]⟩] := by
  have h := calls_of_send_http (BASE_URL ++ "/v3/auth/refresh") "POST"
    (some (Json.obj [("refresh_token", optTokenToJson st.refresh_token)]))
    [("Content-Type", "application/json")] w
  unfold PlaytomicClient._refresh_access_token
  rcases hsend : PlaytomicClient._send_http_request (BASE_URL ++ "/v3/auth/refresh") "POST"
    (some (Json.obj [("refresh_token", optTokenToJson st.refresh_token)]))
    [("Content-Type", "application/json")] w with ⟨res, w'⟩
  rw [hsend] at h
  simp only [hsend]
  cases res with
  | error e => simpa using h
  | ok resp => cases hb : resp.body <;> simpa [hb] using h

/-- Characterisation of one HTTP attempt: the outcome is decided by the head of
the script, the script loses its head, and exactly one request is logged. -/
theorem send_http_eq (url method : String) (json : Option Json)
    (headers : List (String × String)) (w : World) :
    PlaytomicClient._send_http_request url method json headers w =
      ((match w.script.head? with
        | some (TransportEvent.response s b) =>
          if 400 ≤ s ∧ s < 600 then Except.error (PyError.httpError s)
          else Except.ok ⟨s, b⟩
        | some TransportEvent.netFailure => Except.error PyError.requestException
        | none => Except.error PyError.requestException),
       ⟨w.script.drop 1, w.calls ++ [⟨method, url, json, headers⟩]⟩) := by
  rcases w with ⟨script, calls⟩
  cases script with
  | nil => rfl
  | cons ev rest =>
    cases ev with
    | netFailure => rfl
    | response s b =>
      simp only [PlaytomicClient._send_http_request, List.head?, List.drop]
      split <;> rfl

/-- After dropping one element the head is the original second element. -/
theorem head?_drop_one {α : Type} (l : List α) : (l.drop 1).head? = l.get? 1 := by
  cases l with
  | nil => rfl
  | cons a t => cases t <;> rfl

/-- Lemma: `_authenticate` either raises and leaves the state unchanged, or succeeds
and replaces both token fields together from the response body's fields. -/
theorem auth_cases (st : ClientState) (w : World) :
    (∃ e, (PlaytomicClient._authenticate st w).1 = Except.error e ∧
      (PlaytomicClient._authenticate st w).2.1 = st) ∨
    (∃ fields, (PlaytomicClient._authenticate st w).1 = Except.ok () ∧
      (PlaytomicClient._authenticate st w).2.1 =
        { st with access_token := getTokenField fields "access_token",
                  refresh_token := getTokenField fields "refresh_token" }) := by
  unfold PlaytomicClient._authenticate
  rcases hsend : PlaytomicClient._send_http_request (BASE_URL ++ "/v3/auth/login") "POST"
    (some (Json.obj [("email", Json.str st.email), ("password", Json.str st.password)]))
    [("Content-Type", "application/json")] w with ⟨res, w'⟩
  simp only [hsend]
  cases res with
  | error e => exact Or.inl ⟨e, rfl, rfl⟩
  | ok resp =>
    rcases resp with ⟨rs, rb⟩
    cases rb with
    | obj fields => exact Or.inr ⟨fields, rfl, rfl⟩
    | null => exact Or.inl ⟨_, rfl, rfl⟩
    | bool b => exact Or.inl ⟨_, rfl, rfl⟩
    | num n => exact Or.inl ⟨_, rfl, rfl⟩
    | str s => exact Or.inl ⟨_, rfl, rfl⟩
    | arr xs => exact Or.inl ⟨_, rfl, rfl⟩

/-- Lemma: `_refresh_access_token` either raises and leaves the state unchanged, or
succeeds and replaces both token fields together from the response body's
fields. -/
theorem refresh_cases (st : ClientState) (w : World) :
    (∃ e, (PlaytomicClient._refresh_access_token st w).1 = Except.error e ∧
      (PlaytomicClient._refresh_access_token st w).2.1 = st) ∨
    (∃ fields, (PlaytomicClient._refresh_access_token st w).1 = Except.ok () ∧
      (PlaytomicClient._refresh_access_token st w).2.1 =
        { st with access_token := getTokenField fields "access_token",
                  refresh_token := getTokenField fields "refresh_token" }) := by
  unfold PlaytomicClient._refresh_access_token
  rcases hsend : PlaytomicClient._send_http_request (BASE_URL ++ "/v3/auth/refresh") "POST"
    (some (Json.obj [("refresh_token", optTokenToJson st.refresh_token)]))
    [("Content-Type", "application/json")] w with ⟨res, w'⟩
  simp only [hsend]
  cases res with
  | error e => exact Or.inl ⟨e, rfl, rfl⟩
  | ok resp =>
    rcases resp with ⟨rs, rb⟩
    cases rb with
    | obj fields => exact Or.inr ⟨fields, rfl, rfl⟩
    | null => exact Or.inl ⟨_, rfl, rfl⟩
    | bool b => exact Or.inl ⟨_, rfl, rfl⟩
    | num n => exact Or.inl ⟨_, rfl, rfl⟩
    | str s => exact Or.inl ⟨_, rfl, rfl⟩
    | arr xs => exact Or.inl ⟨_, rfl, rfl⟩

/-- The refresh call consumes exactly one script event. -/
theorem refresh_script_eq (st : ClientState) (w : World) :
    (PlaytomicClient._refresh_access_token st w).2.2.script = w.script.drop 1 := by
  unfold PlaytomicClient._refresh_access_token
  rcases hsend : PlaytomicClient._send_http_request (BASE_URL ++ "/v3/auth/refresh") "POST"
    (some (Json.obj [("refresh_token", optTokenToJson st.refresh_token)]))
    [("Content-Type", "application/json")] w with ⟨res, w'⟩
  have hw' : w'.script = w.script.drop 1 := by
    have := send_http_eq (BASE_URL ++ "/v3/auth/refresh") "POST"
      (some (Json.obj [("refresh_token", optTokenToJson st.refresh_token)]))
      [("Content-Type", "application/json")] w
    rw [hsend] at this
    exact congrArg World.script (congrArg Prod.snd this)
  simp only [hsend]
  cases res with
  | error e => exact hw'
  | ok resp => cases hb : resp.body <;> simpa [hb] using hw'

/-- The final state of a `send_request` is either the input state or the state
produced by the single token refresh performed on the intermediate world. -/
theorem send_state_cases (st : ClientState) (method endpoint : String)
    (payload : Option Json) (w : World) :
    (PlaytomicClient.send_request st method endpoint payload w).2.1 = st ∨
    (PlaytomicClient.send_request st method endpoint payload w).2.1 =
      (PlaytomicClient._refresh_access_token st
        ⟨w.script.drop 1,
         w.calls ++ [⟨method, BASE_URL ++ endpoint, payload,
                      PlaytomicClient._get_headers st⟩]⟩).2.1 := by
  unfold PlaytomicClient.send_request
  rcases h1 : PlaytomicClient._send_http_request (BASE_URL ++ endpoint) method payload
    (PlaytomicClient._get_headers st) w with ⟨res1, w1⟩
  have e1 := send_http_eq (BASE_URL ++ endpoint) method payload
    (PlaytomicClient._get_headers st) w
  rw [h1] at e1
  have hw1 : w1 = ⟨w.script.drop 1,
      w.calls ++ [⟨method, BASE_URL ++ endpoint, payload,
                   PlaytomicClient._get_headers st⟩]⟩ :=
    congrArg Prod.snd e1
  simp only [h1]
  cases res1 with
  | ok resp => exact Or.inl rfl
  | error e =>
    cases e with
    | requestException => exact Or.inl rfl
    | exception m => exact Or.inl rfl
    | httpError code =>
      by_cases h401 : code = 401
      · subst h401
        simp only [if_true]
        rw [hw1]
        rcases h2 : PlaytomicClient._refresh_access_token st
          ⟨w.script.drop 1,
           w.calls ++ [⟨method, BASE_URL ++ endpoint, payload,
                        PlaytomicClient._get_headers st⟩]⟩ with ⟨res2, st2, w2⟩
        simp only [h2]
        cases res2 with
        | error e2 => right; simp [h2]
        | ok u =>
          rcases h3 : PlaytomicClient._send_http_request (BASE_URL ++ endpoint) method payload
            (PlaytomicClient._get_headers st2) w2 with ⟨res3, w3⟩
          simp only [h3]
          cases res3 with
          | ok resp => right; simp [h2]
          | error e3 => right; simp [h2]
      · simp only []
        rw [if_neg h401]
        exact Or.inl rfl

/-- The first request a `send_request` logs (starting from an empty log) is the
logical request itself: the given method, the base URL plus the endpoint, the
given payload, and headers built from the current state. -/
theorem send_first_call (st : ClientState) (method endpoint : String)
    (payload : Option Json) (script : List TransportEvent) :
    (PlaytomicClient.send_request st method endpoint payload ⟨script, []⟩).2.2.calls.head? =
      some ⟨method, BASE_URL ++ endpoint, payload, PlaytomicClient._get_headers st⟩ := by
  unfold PlaytomicClient.send_request
  rcases h1 : PlaytomicClient._send_http_request (BASE_URL ++ endpoint) method payload
    (PlaytomicClient._get_headers st) ⟨script, []⟩ with ⟨res1, w1⟩
  have e1 := send_http_eq (BASE_URL ++ endpoint) method payload
    (PlaytomicClient._get_headers st) ⟨script, []⟩
  rw [h1] at e1
  have hw1calls : w1.calls =
      [⟨method, BASE_URL ++ endpoint, payload, PlaytomicClient._get_headers st⟩] := by
    have := congrArg (fun p => (Prod.snd p).calls) e1
    simpa using this
  simp only [h1]
  cases res1 with
  | ok resp => simp [hw1calls]
  | error e =>
    cases e with
    | requestException => simp [hw1calls]
    | exception m => simp [hw1calls]
    | httpError code =>
      by_cases h401 : code = 401
      · subst h401
        simp only [if_true]
        rcases h2 : PlaytomicClient._refresh_access_token st w1 with ⟨res2, st2, w2⟩
        have hc2 := refresh_calls_eq st w1
        rw [h2] at hc2
        simp only [] at hc2
        cases res2 with
        | error e2 => simp [hc2, hw1calls]
        | ok u =>
          rcases h3 : PlaytomicClient._send_http_request (BASE_URL ++ endpoint) method payload
            (PlaytomicClient._get_headers st2) w2 with ⟨res3, w3⟩
          have hc3 := calls_of_send_http (BASE_URL ++ endpoint) method payload
            (PlaytomicClient._get_headers st2) w2
          rw [h3] at hc3
          simp only [] at hc3
          cases res3 with
          | ok resp => simp [h3, hc3, hc2, hw1calls]
          | error e3 => simp [h3, hc3, hc2, hw1calls]
      · simp [h401, hw1calls]

/-- A `send_request` whose first attempt is not a 401 response leaves the client
state exactly as it was: no refresh happens on any other outcome. -/
theorem send_state_eq_of_non401 (st : ClientState) (method endpoint : String)
    (payload : Option Json) (w : World)
    (hno : ∀ b rest, w.script ≠ TransportEvent.response 401 b :: rest) :
    (PlaytomicClient.send_request st method endpoint payload w).2.1 = st := by
  unfold PlaytomicClient.send_request
  rcases h1 : PlaytomicClient._send_http_request (BASE_URL ++ endpoint) method payload
    (PlaytomicClient._get_headers st) w with ⟨res1, w1⟩
  have e1 := send_http_eq (BASE_URL ++ endpoint) method payload
    (PlaytomicClient._get_headers st) w
  rw [h1] at e1
  have hres1 := congrArg Prod.fst e1
  simp only [] at hres1
  simp only [h1]
  cases res1 with
  | ok resp => rfl
  | error e =>
    cases e with
    | requestException => rfl
    | exception m => rfl
    | httpError code =>
      cases hs : w.script with
      | nil => rw [hs] at hres1; simp at hres1
      | cons ev rest =>
        cases ev with
        | netFailure => rw [hs] at hres1; simp at hres1
        | response s b =>
          rw [hs] at hres1
          simp only [List.head?] at hres1
          by_cases hrange : 400 ≤ s ∧ s < 600
          · rw [if_pos hrange] at hres1
            have hcode : code = s := by simpa using hres1
            have hs401 : s ≠ 401 := fun hcontra => hno b rest (by rw [hs, hcontra])
            have hc401 : code ≠ 401 := by rw [hcode]; exact hs401
            simp [hc401]
          · rw [if_neg hrange] at hres1
            simp at hres1

/-- Characterisation of `send_request` when the first scripted event is a 401
response: the run continues with the single token refresh and, if that
succeeds, one reissue of the same request with headers rebuilt from the
refreshed state. -/
theorem send_401_eq (st : ClientState) (method endpoint : String)
    (payload : Option Json) (b : Json) (rest : List TransportEvent) :
    PlaytomicClient.send_request st method endpoint payload
        ⟨TransportEvent.response 401 b :: rest, []⟩ =
      (match PlaytomicClient._refresh_access_token st
          ⟨rest, [⟨method, BASE_URL ++ endpoint, payload,
                   PlaytomicClient._get_headers st⟩]⟩ with
       | (Except.error e2, st2, w2) => (Except.error e2, st2, w2)
       | (Except.ok _, st2, w2) =>
         match PlaytomicClient._send_http_request (BASE_URL ++ endpoint) method payload
             (PlaytomicClient._get_headers st2) w2 with
         | (Except.ok resp, w3) => (Except.ok resp.body, st2, w3)
         | (Except.error e2, w3) => (Except.error e2, st2, w3)) := by
  have h401c : 400 ≤ 401 ∧ 401 < 600 := by omega
  simp [PlaytomicClient.send_request, PlaytomicClient._send_http_request, h401c]

/-- With a truthy access token, `Client._get_headers` succeeds and returns the
same header list that `PlaytomicClient._get_headers` builds. -/
theorem client_get_headers_ok (st : ClientState)
    (h : tokenFalsy st.access_token = false) :
    Client._get_headers st = Except.ok (PlaytomicClient._get_headers st) := by
  simp [Client._get_headers, PlaytomicClient._get_headers, h]

/-- With a falsy access token, `Client._get_headers` raises. -/
theorem client_get_headers_raises (st : ClientState)
    (h : tokenFalsy st.access_token = true) :
    Client._get_headers st =
      Except.error (PyError.exception "Authentication token is missing") := by
  simp [Client._get_headers, h]

/-- Characterisation of `Client.send_request` when the access token is truthy
and the first scripted event is a 401 response: the run continues with the
single token refresh, then rebuilds headers (which can now raise), and only on
success reissues the request once. -/
theorem client_send_401_eq (st : ClientState) (method endpoint : String)
    (payload : Option Json) (b : Json) (rest : List TransportEvent)
    (hT : tokenFalsy st.access_token = false) :
    Client.send_request st method endpoint payload
        ⟨TransportEvent.response 401 b :: rest, []⟩ =
      (match PlaytomicClient._refresh_access_token st
          ⟨rest, [⟨method, BASE_URL ++ endpoint, payload,
                   PlaytomicClient._get_headers st⟩]⟩ with
       | (Except.error e2, st2, w2) => (Except.error e2, st2, w2)
       | (Except.ok _, st2, w2) =>
         match Client._get_headers st2 with
         | Except.error e2 => (Except.error e2, st2, w2)
         | Except.ok headers2 =>
           match PlaytomicClient._send_http_request (BASE_URL ++ endpoint) method payload
               headers2 w2 with
           | (Except.ok resp, w3) => (Except.ok resp.body, st2, w3)
           | (Except.error e2, w3) => (Except.error e2, st2, w3)) := by
  have h401c : 400 ≤ 401 ∧ 401 < 600 := by omega
  rw [Client.send_request, client_get_headers_ok st hT]
  simp [Client._send_http_request, Client._refresh_access_token,
    PlaytomicClient._send_http_request, h401c]

/-- Lemma: `_authenticate` succeeds only against a non-error-status response
with a JSON object body, and then its new tokens are exactly that body's
`access_token` and `refresh_token` fields. -/
theorem auth_ok_inv (st : ClientState) (w : World)
    (hok : (PlaytomicClient._authenticate st w).1 = Except.ok ()) :
    ∃ s fields rest,
      w.script = TransportEvent.response s (Json.obj fields) :: rest ∧
      ¬(400 ≤ s ∧ s < 600) ∧
      (PlaytomicClient._authenticate st w).2.1 =
        { st with access_token := getTokenField fields "access_token",
                  refresh_token := getTokenField fields "refresh_token" } := by
  unfold PlaytomicClient._authenticate at hok ⊢
  rcases hsend : PlaytomicClient._send_http_request (BASE_URL ++ "/v3/auth/login") "POST"
    (some (Json.obj [("email", Json.str st.email), ("password", Json.str st.password)]))
    [("Content-Type", "application/json")] w with ⟨res, w'⟩
  have e1 := send_http_eq (BASE_URL ++ "/v3/auth/login") "POST"
    (some (Json.obj [("email", Json.str st.email), ("password", Json.str st.password)]))
    [("Content-Type", "application/json")] w
  rw [hsend] at e1
  have hres := congrArg Prod.fst e1
  simp only [] at hres
  simp only [hsend] at hok
  simp only [hsend]
  cases res with
  | error e => simp only [] at hok; cases hok
  | ok resp =>
    rcases resp with ⟨rs, rb⟩
    cases rb with
    | obj fields =>
      cases hs : w.script with
      | nil => rw [hs] at hres; simp at hres
      | cons ev rest =>
        cases ev with
        | netFailure => rw [hs] at hres; simp at hres
        | response s b =>
          rw [hs] at hres
          simp only [List.head?] at hres
          by_cases hrange : 400 ≤ s ∧ s < 600
          · rw [if_pos hrange] at hres; simp at hres
          · rw [if_neg hrange] at hres
            simp only [Except.ok.injEq, HttpResponse.mk.injEq] at hres
            refine ⟨s, fields, rest, ?_, hrange, rfl⟩
            rw [hres.2]
    | null => simp only [] at hok; cases hok
    | bool bb => simp only [] at hok; cases hok
    | num n => simp only [] at hok; cases hok
    | str sv => simp only [] at hok; cases hok
    | arr xs => simp only [] at hok; cases hok

/-- Lemma: `_refresh_access_token` succeeds only against a non-error-status
response with a JSON object body, and then its new tokens are exactly that
body's `access_token` and `refresh_token` fields. -/
theorem refresh_ok_inv (st : ClientState) (w : World)
    (hok : (PlaytomicClient._refresh_access_token st w).1 = Except.ok ()) :
    ∃ s fields rest,
      w.script = TransportEvent.response s (Json.obj fields) :: rest ∧
      ¬(400 ≤ s ∧ s < 600) ∧
      (PlaytomicClient._refresh_access_token st w).2.1 =
        { st with access_token := getTokenField fields "access_token",
                  refresh_token := getTokenField fields "refresh_token" } := by
  unfold PlaytomicClient._refresh_access_token at hok ⊢
  rcases hsend : PlaytomicClient._send_http_request (BASE_URL ++ "/v3/auth/refresh") "POST"
    (some (Json.obj [("refresh_token", optTokenToJson st.refresh_token)]))
    [("Content-Type", "application/json")] w with ⟨res, w'⟩
  have e1 := send_http_eq (BASE_URL ++ "/v3/auth/refresh") "POST"
    (some (Json.obj [("refresh_token", optTokenToJson st.refresh_token)]))
    [("Content-Type", "application/json")] w
  rw [hsend] at e1
  have hres := congrArg Prod.fst e1
  simp only [] at hres
  simp only [hsend] at hok
  simp only [hsend]
  cases res with
  | error e => simp only [] at hok; cases hok
  | ok resp =>
    rcases resp with ⟨rs, rb⟩
    cases rb with
    | obj fields =>
      cases hs : w.script with
      | nil => rw [hs] at hres; simp at hres
      | cons ev rest =>
        cases ev with
        | netFailure => rw [hs] at hres; simp at hres
        | response s b =>
          rw [hs] at hres
          simp only [List.head?] at hres
          by_cases hrange : 400 ≤ s ∧ s < 600
          · rw [if_pos hrange] at hres; simp at hres
          · rw [if_neg hrange] at hres
            simp only [Except.ok.injEq, HttpResponse.mk.injEq] at hres
            refine ⟨s, fields, rest, ?_, hrange, rfl⟩
            rw [hres.2]
    | null => simp only [] at hok; cases hok
    | bool bb => simp only [] at hok; cases hok
    | num n => simp only [] at hok; cases hok
    | str sv => simp only [] at hok; cases hok
    | arr xs => simp only [] at hok; cases hok

/-- C3 counterexample input: a client state with no access token. -/
def noTokenState : ClientState := ⟨"e", "p", none, none⟩

/-- C3, as stated, is false for `Client._get_headers` (`src/client.py`): with an
absent access token it raises `Exception("Authentication token is missing")`
instead of returning only the content-type header. -/
theorem C3_counterexample :
    Client._get_headers noTokenState =
      Except.error (PyError.exception "Authentication token is missing") ∧
    resultOk (Client._get_headers noTokenState) = false :=
  ⟨rfl, rfl⟩

/-- C3 (amended): `PlaytomicClient._get_headers` (`src/api.py`) returns the
Bearer plus content-type headers when the access token is present and non-empty,
and only the content-type header (without raising) when it is absent or empty;
`Client._get_headers` (`src/client.py`) returns the same two headers in the
present-and-non-empty case but raises `Exception("Authentication token is
missing")` when the token is absent or empty. -/
theorem C3_get_headers (st : ClientState) :
    (st.access_token = none →
      PlaytomicClient._get_headers st = [("Content-Type", "application/json")] ∧
      Client._get_headers st =
        Except.error (PyError.exception "Authentication token is missing")) ∧
    (∀ s : String, st.access_token = some s → ¬s = "" →
      PlaytomicClient._get_headers st =
        [("Authorization", "Bearer " ++ s), ("Content-Type", "application/json")] ∧
      Client._get_headers st =
        Except.ok [("Authorization", "Bearer " ++ s),
                   ("Content-Type", "application/json")]) ∧
    (st.access_token = some "" →
      PlaytomicClient._get_headers st = [("Content-Type", "application/json")] ∧
      Client._get_headers st =
        Except.error (PyError.exception "Authentication token is missing")) := by
  refine ⟨fun h => ?_, fun s h hs => ?_, fun h => ?_⟩
  · simp [PlaytomicClient._get_headers, Client._get_headers, tokenFalsy, h]
  · simp [PlaytomicClient._get_headers, Client._get_headers, tokenFalsy, h, hs]
  · simp [PlaytomicClient._get_headers, Client._get_headers, tokenFalsy, h]

/-- Witness for C3: concrete evaluations at a present token "t" and at an absent
token. -/
theorem C3_witness :
    PlaytomicClient._get_headers ⟨"e", "p", some "t", none⟩ =
      [("Authorization", "Bearer " ++ "t"), ("Content-Type", "application/json")] ∧
    PlaytomicClient._get_headers ⟨"e", "p", none, none⟩ =
      [("Content-Type", "application/json")] :=
  ⟨((C3_get_headers ⟨"e", "p", some "t", none⟩).2.1 "t" rfl (by decide)).1,
   ((C3_get_headers ⟨"e", "p", none, none⟩).1 rfl).1⟩

/-- C2, as stated, is false: with no refresh token (the state before any login),
`_refresh_access_token` does not fail with any state-check error — against a
scripted 200 response it completes successfully — and it does issue the refresh
HTTP request (exactly one call is logged). -/
theorem C2_counterexample :
    (PlaytomicClient._refresh_access_token ⟨"e", "p", none, none⟩
      ⟨[TransportEvent.response 200
          (Json.obj [("access_token", Json.str "a"), ("refresh_token", Json.str "r")])],
       []⟩).1 = Except.ok () ∧
    (PlaytomicClient._refresh_access_token ⟨"e", "p", none, none⟩
      ⟨[TransportEvent.response 200
          (Json.obj [("access_token", Json.str "a"), ("refresh_token", Json.str "r")])],
       []⟩).2.2.calls.length = 1 :=
  ⟨rfl, rfl⟩

/-- C2 (amended): the source has no `InvalidStateError` and no precondition
check: calling refresh before any successful login (refresh token absent) always
issues exactly one refresh HTTP request, a POST to `/v3/auth/refresh` carrying a
JSON-`null` refresh token; its outcome is decided solely by that HTTP call. -/
theorem C2_refresh_before_login (st : ClientState) (w : World)
    (h : st.refresh_token = none) :
    (PlaytomicClient._refresh_access_token st w).2.2.calls =
      w.calls ++ [⟨"POST", BASE_URL ++ "/v3/auth/refresh",
                   some (Json.obj [("refresh_token", Json.null)]),
                   [("Content-Type", "application/json")]⟩] := by
  have hc := refresh_calls_eq st w
  rw [h] at hc
  simpa [optTokenToJson] using hc

/-- Witness for C2 (amended): a concrete pre-login state issues exactly the
null-token refresh request. -/
theorem C2_witness :
    (PlaytomicClient._refresh_access_token ⟨"e", "p", some "t", none⟩
        ⟨[], []⟩).2.2.calls =
      [] ++ [⟨"POST", BASE_URL ++ "/v3/auth/refresh",
              some (Json.obj [("refresh_token", Json.null)]),
              [("Content-Type", "application/json")]⟩] :=
  C2_refresh_before_login ⟨"e", "p", some "t", none⟩ ⟨[], []⟩ rfl

/-- C9: a successful (2xx) login or refresh response whose JSON object body is
missing the `access_token` (resp. `refresh_token`) field does not raise: the
operation completes normally and stores the absent field as a null token. -/
theorem C9_missing_token_field (st : ClientState) (s : Nat)
    (fields : List (String × Json)) (rest : List TransportEvent)
    (h200 : 200 ≤ s) (h300 : s < 300) :
    (jsonLookup fields "access_token" = none →
      (PlaytomicClient._authenticate st
          ⟨TransportEvent.response s (Json.obj fields) :: rest, []⟩).1 = Except.ok () ∧
      (PlaytomicClient._authenticate st
          ⟨TransportEvent.response s (Json.obj fields) :: rest, []⟩).2.1.access_token = none) ∧
    (jsonLookup fields "refresh_token" = none →
      (PlaytomicClient._refresh_access_token st
          ⟨TransportEvent.response s (Json.obj fields) :: rest, []⟩).1 = Except.ok () ∧
      (PlaytomicClient._refresh_access_token st
          ⟨TransportEvent.response s (Json.obj fields) :: rest, []⟩).2.1.refresh_token = none) := by
  have hcond : ¬(400 ≤ s ∧ s < 600) := by omega
  constructor
  · intro habs
    simp [PlaytomicClient._authenticate, PlaytomicClient._send_http_request,
      hcond, getTokenField, habs]
  · intro habs
    simp [PlaytomicClient._refresh_access_token, PlaytomicClient._send_http_request,
      hcond, getTokenField, habs]

/-- Witness for C9: a 200 response with an empty JSON object body. -/
theorem C9_witness :
    (PlaytomicClient._authenticate ⟨"e", "p", some "a", some "r"⟩
        ⟨[TransportEvent.response 200 (Json.obj [])], []⟩).1 = Except.ok () ∧
    (PlaytomicClient._authenticate ⟨"e", "p", some "a", some "r"⟩
        ⟨[TransportEvent.response 200 (Json.obj [])], []⟩).2.1.access_token = none :=
  (C9_missing_token_field ⟨"e", "p", some "a", some "r"⟩ 200 [] []
    (by decide) (by decide)).1 rfl

/-- C4, as stated, is false for non-2xx statuses outside 400..599: a first
attempt returning 304 is not propagated as an error — `raise_for_status` does
not fire, so `send_request` returns the parsed body successfully after one HTTP
call. -/
theorem C4_counterexample :
    (PlaytomicClient.send_request ⟨"e", "p", some "t", some "r"⟩ "GET" "/v1/tenants/1" none
        ⟨[TransportEvent.response 304 (Json.obj [("x", Json.str "y")])], []⟩).1 =
      Except.ok (Json.obj [("x", Json.str "y")]) ∧
    (PlaytomicClient.send_request ⟨"e", "p", some "t", some "r"⟩ "GET" "/v1/tenants/1" none
        ⟨[TransportEvent.response 304 (Json.obj [("x", Json.str "y")])], []⟩).2.2.calls.length = 1 :=
  ⟨rfl, rfl⟩

/-- C4 (amended): for every first-attempt status in 400..599 other than 401 (the
statuses `raise_for_status` treats as errors), `send_request` propagates
`HTTPError` immediately: exactly one HTTP call is issued, no refresh is
attempted, and the client state (hence the token pair) is unchanged. -/
theorem C4_http_error_immediate (st : ClientState) (method endpoint : String)
    (payload : Option Json) (s : Nat) (b : Json) (rest : List TransportEvent)
    (h4 : 400 ≤ s) (h6 : s < 600) (hne : s ≠ 401) :
    PlaytomicClient.send_request st method endpoint payload
        ⟨TransportEvent.response s b :: rest, []⟩ =
      (Except.error (PyError.httpError s), st,
       ⟨rest, [⟨method, BASE_URL ++ endpoint, payload,
                PlaytomicClient._get_headers st⟩]⟩) := by
  have hcond : 400 ≤ s ∧ s < 600 := ⟨h4, h6⟩
  simp [PlaytomicClient.send_request, PlaytomicClient._send_http_request, hcond, hne]

/-- Witness for C4 (amended): a concrete first-attempt 500. -/
theorem C4_witness :
    PlaytomicClient.send_request ⟨"e", "p", some "t", some "r"⟩ "GET" "/x" none
        ⟨[TransportEvent.response 500 (Json.obj [])], []⟩ =
      (Except.error (PyError.httpError 500), ⟨"e", "p", some "t", some "r"⟩,
       ⟨[], [⟨"GET", BASE_URL ++ "/x", none,
              PlaytomicClient._get_headers ⟨"e", "p", some "t", some "r"⟩⟩]⟩) :=
  C4_http_error_immediate ⟨"e", "p", some "t", some "r"⟩ "GET" "/x" none 500 (Json.obj [])
    [] (by decide) (by decide) (by decide)

/-- C5: a 2xx first attempt issues exactly one HTTP call and returns the parsed
body unchanged; a first-attempt 401 followed by a successful (2xx, token-bearing
object body) refresh and a 2xx retry issues exactly three HTTP calls and returns
the retry's parsed body. -/
theorem C5_success_returns_body (st : ClientState) (method endpoint : String)
    (payload : Option Json) (s : Nat) (b : Json) (rest : List TransportEvent)
    (s1 : Nat) (fields : List (String × Json)) (s2 : Nat) (b1 b2 : Json)
    (rest2 : List TransportEvent) :
    (200 ≤ s → s < 300 →
      PlaytomicClient.send_request st method endpoint payload
          ⟨TransportEvent.response s b :: rest, []⟩ =
        (Except.ok b, st,
         ⟨rest, [⟨method, BASE_URL ++ endpoint, payload,
                  PlaytomicClient._get_headers st⟩]⟩)) ∧
    (200 ≤ s1 → s1 < 300 → 200 ≤ s2 → s2 < 300 →
      (PlaytomicClient.send_request st method endpoint payload
          ⟨[TransportEvent.response 401 b1,
            TransportEvent.response s1 (Json.obj fields),
            TransportEvent.response s2 b2] ++ rest2, []⟩).1 = Except.ok b2 ∧
      (PlaytomicClient.send_request st method endpoint payload
          ⟨[TransportEvent.response 401 b1,
            TransportEvent.response s1 (Json.obj fields),
            TransportEvent.response s2 b2] ++ rest2, []⟩).2.2.calls.length = 3) := by
  constructor
  · intro ha hb
    have hcond : ¬(400 ≤ s ∧ s < 600) := by omega
    simp [PlaytomicClient.send_request, PlaytomicClient._send_http_request, hcond]
  · intro ha1 ha2 hb1 hb2
    have h401c : 400 ≤ 401 ∧ 401 < 600 := by omega
    have hc1 : ¬(400 ≤ s1 ∧ s1 < 600) := by omega
    have hc2 : ¬(400 ≤ s2 ∧ s2 < 600) := by omega
    constructor <;>
      simp [PlaytomicClient.send_request, PlaytomicClient._send_http_request,
        PlaytomicClient._refresh_access_token, h401c, hc1, hc2]

/-- Witness for C5: a first-attempt 200 and a 401-refresh-200 run on concrete
scripts. -/
theorem C5_witness :
    PlaytomicClient.send_request ⟨"e", "p", some "t", some "r"⟩ "GET" "/v1/tenants/1" none
        ⟨[TransportEvent.response 200 (Json.obj [("id", Json.str "1")])], []⟩ =
      (Except.ok (Json.obj [("id", Json.str "1")]), ⟨"e", "p", some "t", some "r"⟩,
       ⟨[], [⟨"GET", BASE_URL ++ "/v1/tenants/1", none,
              PlaytomicClient._get_headers ⟨"e", "p", some "t", some "r"⟩⟩]⟩) ∧
    ((PlaytomicClient.send_request ⟨"e", "p", some "t", some "r"⟩ "GET" "/v1/tenants/1" none
        ⟨[TransportEvent.response 401 (Json.obj []),
          TransportEvent.response 200
            (Json.obj [("access_token", Json.str "a2"), ("refresh_token", Json.str "r2")]),
          TransportEvent.response 200 (Json.str "done")] ++ [], []⟩).1 =
        Except.ok (Json.str "done") ∧
     (PlaytomicClient.send_request ⟨"e", "p", some "t", some "r"⟩ "GET" "/v1/tenants/1" none
        ⟨[TransportEvent.response 401 (Json.obj []),
          TransportEvent.response 200
            (Json.obj [("access_token", Json.str "a2"), ("refresh_token", Json.str "r2")]),
          TransportEvent.response 200 (Json.str "done")] ++ [], []⟩).2.2.calls.length = 3) := by
  have H := C5_success_returns_body ⟨"e", "p", some "t", some "r"⟩ "GET" "/v1/tenants/1" none
    200 (Json.obj [("id", Json.str "1")]) [] 200
    [("access_token", Json.str "a2"), ("refresh_token", Json.str "r2")] 200
    (Json.obj []) (Json.str "done") []
  exact ⟨H.1 (by decide) (by decide), H.2 (by decide) (by decide) (by decide) (by decide)⟩

/-- C6, as stated, is false: a construction whose login call returns 200 with an
empty JSON object body is a successful login, yet leaves `access_token` absent
afterwards. -/
theorem C6_counterexample :
    (PlaytomicClient.init "e" "p" ⟨[TransportEvent.response 200 (Json.obj [])], []⟩).1 =
      Except.ok ⟨"e", "p", none, none⟩ :=
  rfl

/-- C6 (amended): a successful login or refresh is possible only against a
non-error-status response with a JSON object body, and then both token fields
are replaced together wholesale from exactly that body's `access_token` and
`refresh_token` fields (each stored as null when its field is missing or null);
conversely, every scripted non-error object response makes login and refresh
succeed with exactly those tokens; a failed login or refresh leaves the token
pair untouched — so no operation ever assigns one of the two fields without the
other; but `access_token` can be absent after a successful login whose response
body lacks the field. -/
theorem C6_tokens_replaced_together (st : ClientState) (w : World) (s : Nat)
    (fields : List (String × Json)) (rest : List TransportEvent)
    (calls : List HttpRequest) :
    (¬(400 ≤ s ∧ s < 600) →
      (PlaytomicClient._authenticate st
          ⟨TransportEvent.response s (Json.obj fields) :: rest, calls⟩).1 =
        Except.ok () ∧
      (PlaytomicClient._authenticate st
          ⟨TransportEvent.response s (Json.obj fields) :: rest, calls⟩).2.1 =
        { st with access_token := getTokenField fields "access_token",
                  refresh_token := getTokenField fields "refresh_token" }) ∧
    (¬(400 ≤ s ∧ s < 600) →
      (PlaytomicClient._refresh_access_token st
          ⟨TransportEvent.response s (Json.obj fields) :: rest, calls⟩).1 =
        Except.ok () ∧
      (PlaytomicClient._refresh_access_token st
          ⟨TransportEvent.response s (Json.obj fields) :: rest, calls⟩).2.1 =
        { st with access_token := getTokenField fields "access_token",
                  refresh_token := getTokenField fields "refresh_token" }) ∧
    ((PlaytomicClient._authenticate st w).1 = Except.ok () →
      ∃ s2 fields2 rest2,
        w.script = TransportEvent.response s2 (Json.obj fields2) :: rest2 ∧
        ¬(400 ≤ s2 ∧ s2 < 600) ∧
        (PlaytomicClient._authenticate st w).2.1 =
          { st with access_token := getTokenField fields2 "access_token",
                    refresh_token := getTokenField fields2 "refresh_token" }) ∧
    ((PlaytomicClient._refresh_access_token st w).1 = Except.ok () →
      ∃ s2 fields2 rest2,
        w.script = TransportEvent.response s2 (Json.obj fields2) :: rest2 ∧
        ¬(400 ≤ s2 ∧ s2 < 600) ∧
        (PlaytomicClient._refresh_access_token st w).2.1 =
          { st with access_token := getTokenField fields2 "access_token",
                    refresh_token := getTokenField fields2 "refresh_token" }) ∧
    (∀ e, (PlaytomicClient._authenticate st w).1 = Except.error e →
      (PlaytomicClient._authenticate st w).2.1 = st) ∧
    (∀ e, (PlaytomicClient._refresh_access_token st w).1 = Except.error e →
      (PlaytomicClient._refresh_access_token st w).2.1 = st) := by
  refine ⟨fun hcond => ?_, fun hcond => ?_,
          fun hok => auth_ok_inv st w hok, fun hok => refresh_ok_inv st w hok,
          fun e he => ?_, fun e he => ?_⟩
  · constructor <;>
      simp [PlaytomicClient._authenticate, PlaytomicClient._send_http_request, hcond]
  · constructor <;>
      simp [PlaytomicClient._refresh_access_token, PlaytomicClient._send_http_request, hcond]
  · rcases auth_cases st w with ⟨e', _, hst⟩ | ⟨fields', hok', _⟩
    · exact hst
    · rw [hok'] at he; cases he
  · rcases refresh_cases st w with ⟨e', _, hst⟩ | ⟨fields', hok', _⟩
    · exact hst
    · rw [hok'] at he; cases he

/-- Witness for C6 (amended): a concrete 200 login whose body carries both
token fields succeeds and stores exactly those two values together. -/
theorem C6_witness :
    (PlaytomicClient._authenticate ⟨"e", "p", none, none⟩
        ⟨[TransportEvent.response 200
            (Json.obj [("access_token", Json.str "a"),
                       ("refresh_token", Json.str "r")])], []⟩).1 = Except.ok () ∧
    (PlaytomicClient._authenticate ⟨"e", "p", none, none⟩
        ⟨[TransportEvent.response 200
            (Json.obj [("access_token", Json.str "a"),
                       ("refresh_token", Json.str "r")])], []⟩).2.1 =
      ⟨"e", "p", some "a", some "r"⟩ := by
  have H := C6_tokens_replaced_together ⟨"e", "p", none, none⟩ ⟨[], []⟩ 200
    [("access_token", Json.str "a"), ("refresh_token", Json.str "r")] [] []
  have h1 := H.1 (by omega)
  exact ⟨h1.1, h1.2.trans rfl⟩

/-- C7: the constructor takes (email, password) and logs in eagerly: when the
scripted login response is 2xx with string `access_token` and `refresh_token`
fields, construction succeeds, exactly one HTTP call (the login POST carrying
the credentials) has been issued, and both tokens are present in the resulting
client. -/
theorem C7_construct_with_valid_creds (email password : String) (s : Nat)
    (fields : List (String × Json)) (rest : List TransportEvent) (a r : String)
    (h2 : 200 ≤ s) (h3 : s < 300)
    (ha : jsonLookup fields "access_token" = some (Json.str a))
    (hr : jsonLookup fields "refresh_token" = some (Json.str r)) :
    PlaytomicClient.init email password
        ⟨TransportEvent.response s (Json.obj fields) :: rest, []⟩ =
      (Except.ok ⟨email, password, some a, some r⟩,
       ⟨rest, [⟨"POST", BASE_URL ++ "/v3/auth/login",
                some (Json.obj [("email", Json.str email), ("password", Json.str password)]),
                [("Content-Type", "application/json")]⟩]⟩) := by
  have hcond : ¬(400 ≤ s ∧ s < 600) := by omega
  simp [PlaytomicClient.init, PlaytomicClient._authenticate,
    PlaytomicClient._send_http_request, hcond, getTokenField, ha, hr]

/-- Witness for C7: the spec's mocked login response fields
`access_token = "a1"` and `refresh_token = "r1"` with status 200. -/
theorem C7_witness :
    PlaytomicClient.init "user@x.io" "pw"
        ⟨[TransportEvent.response 200
            (Json.obj [("access_token", Json.str "a1"),
                       ("refresh_token", Json.str "r1")])], []⟩ =
      (Except.ok ⟨"user@x.io", "pw", some "a1", some "r1"⟩,
       ⟨[], [⟨"POST", BASE_URL ++ "/v3/auth/login",
              some (Json.obj [("email", Json.str "user@x.io"),
                              ("password", Json.str "pw")]),
              [("Content-Type", "application/json")]⟩]⟩) :=
  C7_construct_with_valid_creds "user@x.io" "pw" 200
    [("access_token", Json.str "a1"), ("refresh_token", Json.str "r1")] [] "a1" "r1"
    (by decide) (by decide) rfl rfl

/-- C8: the four resource helpers delegate purely to `send_request` with the
table's method and path — tenant get issues GET `/v1/tenants/{id}` with no
payload, tenant create issues POST `/v2/tenants` with the data, tournament get
issues GET `/v2/tournaments/{id}` with no payload, tournament create issues
POST `/v2/tournaments` with the data — each returning the `send_request` result
unchanged, and the first HTTP request each issues carries exactly that method,
URL and payload. -/
theorem C8_endpoint_delegation (client : ClientState) (id : String) (data : Json)
    (script : List TransportEvent) :
    (Tenant.get client id ⟨script, []⟩ =
      PlaytomicClient.send_request client "GET" ("/v1/tenants/" ++ id) none ⟨script, []⟩) ∧
    (Tenant.create client data ⟨script, []⟩ =
      PlaytomicClient.send_request client "POST" "/v2/tenants" (some data) ⟨script, []⟩) ∧
    (TournamentEndpoint.get client id ⟨script, []⟩ =
      PlaytomicClient.send_request client "GET" ("/v2/tournaments/" ++ id) none ⟨script, []⟩) ∧
    (TournamentEndpoint.create client data ⟨script, []⟩ =
      PlaytomicClient.send_request client "POST" "/v2/tournaments" (some data) ⟨script, []⟩) ∧
    (Tenant.get client id ⟨script, []⟩).2.2.calls.head? =
      some ⟨"GET", BASE_URL ++ ("/v1/tenants/" ++ id), none,
            PlaytomicClient._get_headers client⟩ ∧
    (Tenant.create client data ⟨script, []⟩).2.2.calls.head? =
      some ⟨"POST", BASE_URL ++ "/v2/tenants", some data,
            PlaytomicClient._get_headers client⟩ ∧
    (TournamentEndpoint.get client id ⟨script, []⟩).2.2.calls.head? =
      some ⟨"GET", BASE_URL ++ ("/v2/tournaments/" ++ id), none,
            PlaytomicClient._get_headers client⟩ ∧
    (TournamentEndpoint.create client data ⟨script, []⟩).2.2.calls.head? =
      some ⟨"POST", BASE_URL ++ "/v2/tournaments", some data,
            PlaytomicClient._get_headers client⟩ :=
  ⟨rfl, rfl, rfl, rfl,
   send_first_call client "GET" ("/v1/tenants/" ++ id) none script,
   send_first_call client "POST" "/v2/tenants" (some data) script,
   send_first_call client "GET" ("/v2/tournaments/" ++ id) none script,
   send_first_call client "POST" "/v2/tournaments" (some data) script⟩

/-- C10: credentials are never mutated by any operation; the state after a
`send_request` is either the input state or the output of the single token
refresh; and a `send_request` whose first attempt does not return 401 (a
non-401 response, a network failure, or an exhausted transport) leaves the
client state — in particular the token pair — exactly unchanged. -/
theorem C10_frame_property (st : ClientState) (method endpoint : String)
    (payload : Option Json) (w : World) :
    ((PlaytomicClient._authenticate st w).2.1.email = st.email ∧
     (PlaytomicClient._authenticate st w).2.1.password = st.password) ∧
    ((PlaytomicClient._refresh_access_token st w).2.1.email = st.email ∧
     (PlaytomicClient._refresh_access_token st w).2.1.password = st.password) ∧
    ((PlaytomicClient.send_request st method endpoint payload w).2.1.email = st.email ∧
     (PlaytomicClient.send_request st method endpoint payload w).2.1.password = st.password) ∧
    ((PlaytomicClient.send_request st method endpoint payload w).2.1 = st ∨
     (PlaytomicClient.send_request st method endpoint payload w).2.1 =
       (PlaytomicClient._refresh_access_token st
         ⟨w.script.drop 1,
          w.calls ++ [⟨method, BASE_URL ++ endpoint, payload,
                       PlaytomicClient._get_headers st⟩]⟩).2.1) ∧
    (∀ s b rest, w.script = TransportEvent.response s b :: rest → s ≠ 401 →
      (PlaytomicClient.send_request st method endpoint payload w).2.1 = st) ∧
    (∀ rest, w.script = TransportEvent.netFailure :: rest →
      (PlaytomicClient.send_request st method endpoint payload w).2.1 = st) ∧
    (w.script = [] →
      (PlaytomicClient.send_request st method endpoint payload w).2.1 = st) := by
  refine ⟨?_, ?_, ?_, send_state_cases st method endpoint payload w, ?_, ?_, ?_⟩
  · rcases auth_cases st w with ⟨e, _, hst⟩ | ⟨fields, _, hst⟩ <;> simp [hst]
  · rcases refresh_cases st w with ⟨e, _, hst⟩ | ⟨fields, _, hst⟩ <;> simp [hst]
  · rcases send_state_cases st method endpoint payload w with h | h
    · simp [h]
    · rw [h]
      rcases refresh_cases st
        ⟨w.script.drop 1,
         w.calls ++ [⟨method, BASE_URL ++ endpoint, payload,
                      PlaytomicClient._get_headers st⟩]⟩ with ⟨e, _, hst⟩ | ⟨fields, _, hst⟩ <;>
        (rw [hst]; exact ⟨rfl, rfl⟩)
  · intro s b rest hscript hs401
    refine send_state_eq_of_non401 st method endpoint payload w ?_
    intro b2 rest2 hcontra
    rw [hscript] at hcontra
    simp only [List.cons.injEq] at hcontra
    exact hs401 (by
      have := hcontra.1
      cases this
      rfl)
  · intro rest hscript
    refine send_state_eq_of_non401 st method endpoint payload w ?_
    intro b2 rest2 hcontra
    rw [hscript] at hcontra
    simp at hcontra
  · intro hscript
    refine send_state_eq_of_non401 st method endpoint payload w ?_
    intro b2 rest2 hcontra
    rw [hscript] at hcontra
    simp at hcontra

/-- Witness for C10: a concrete first-attempt 500 leaves the state unchanged. -/
theorem C10_witness :
    (PlaytomicClient.send_request ⟨"e", "p", some "t", some "r"⟩ "GET" "/x" none
        ⟨[TransportEvent.response 500 (Json.obj [])], []⟩).2.1 =
      ⟨"e", "p", some "t", some "r"⟩ :=
  (C10_frame_property ⟨"e", "p", some "t", some "r"⟩ "GET" "/x" none
      ⟨[TransportEvent.response 500 (Json.obj [])], []⟩).2.2.2.2.1
    500 (Json.obj []) [] rfl (by decide)

/-- C1, as stated, is false when the refresh call itself fails: on a
first-attempt 401 followed by a 500 from the refresh endpoint, the refresh
failure propagates after exactly two HTTP calls and the original request is
never reissued — "reissues the same request exactly once" does not hold. -/
theorem C1_counterexample :
    (PlaytomicClient.send_request ⟨"e", "p", some "t", some "r"⟩ "GET" "/w" none
        ⟨[TransportEvent.response 401 (Json.obj []),
          TransportEvent.response 500 (Json.obj [])], []⟩).1 =
      Except.error (PyError.httpError 500) ∧
    (PlaytomicClient.send_request ⟨"e", "p", some "t", some "r"⟩ "GET" "/w" none
        ⟨[TransportEvent.response 401 (Json.obj []),
          TransportEvent.response 500 (Json.obj [])], []⟩).2.2.calls.length = 2 :=
  ⟨rfl, rfl⟩

/-- Lemma: behaviour of `PlaytomicClient.send_request` (`src/api.py`) on a
first-attempt 401 — exactly one refresh attempt, at most three calls, refresh
failure propagates after two calls with no reissue, refresh success reissues
exactly once with rebuilt headers and returns the retry outcome as is. -/
theorem api_401_behavior (st : ClientState) (method endpoint : String)
    (payload : Option Json) (b : Json) (rest : List TransportEvent) :
    (PlaytomicClient.send_request st method endpoint payload
        ⟨TransportEvent.response 401 b :: rest, []⟩).2.2.calls.get? 0 =
      some ⟨method, BASE_URL ++ endpoint, payload, PlaytomicClient._get_headers st⟩ ∧
    (PlaytomicClient.send_request st method endpoint payload
        ⟨TransportEvent.response 401 b :: rest, []⟩).2.2.calls.get? 1 =
      some ⟨"POST", BASE_URL ++ "/v3/auth/refresh",
            some (Json.obj [("refresh_token", optTokenToJson st.refresh_token)]),
            [("Content-Type", "application/json")]⟩ ∧
    (PlaytomicClient.send_request st method endpoint payload
        ⟨TransportEvent.response 401 b :: rest, []⟩).2.2.calls.length ≤ 3 ∧
    2 ≤ (PlaytomicClient.send_request st method endpoint payload
        ⟨TransportEvent.response 401 b :: rest, []⟩).2.2.calls.length ∧
    (∀ e, (PlaytomicClient._refresh_access_token st
        ⟨rest, [⟨method, BASE_URL ++ endpoint, payload,
                 PlaytomicClient._get_headers st⟩]⟩).1 = Except.error e →
      (PlaytomicClient.send_request st method endpoint payload
          ⟨TransportEvent.response 401 b :: rest, []⟩).1 = Except.error e ∧
      (PlaytomicClient.send_request st method endpoint payload
          ⟨TransportEvent.response 401 b :: rest, []⟩).2.2.calls.length = 2) ∧
    ((PlaytomicClient._refresh_access_token st
        ⟨rest, [⟨method, BASE_URL ++ endpoint, payload,
                 PlaytomicClient._get_headers st⟩]⟩).1 = Except.ok () →
      (PlaytomicClient.send_request st method endpoint payload
          ⟨TransportEvent.response 401 b :: rest, []⟩).2.2.calls.length = 3 ∧
      (PlaytomicClient.send_request st method endpoint payload
          ⟨TransportEvent.response 401 b :: rest, []⟩).2.1 =
        (PlaytomicClient._refresh_access_token st
          ⟨rest, [⟨method, BASE_URL ++ endpoint, payload,
                   PlaytomicClient._get_headers st⟩]⟩).2.1 ∧
      (PlaytomicClient.send_request st method endpoint payload
          ⟨TransportEvent.response 401 b :: rest, []⟩).2.2.calls.get? 2 =
        some ⟨method, BASE_URL ++ endpoint, payload,
              PlaytomicClient._get_headers
                ((PlaytomicClient._refresh_access_token st
                  ⟨rest, [⟨method, BASE_URL ++ endpoint, payload,
                           PlaytomicClient._get_headers st⟩]⟩).2.1)⟩ ∧
      (PlaytomicClient.send_request st method endpoint payload
          ⟨TransportEvent.response 401 b :: rest, []⟩).1 =
        attemptOutcome (rest.get? 1)) := by
  rw [send_401_eq]
  rcases h2 : PlaytomicClient._refresh_access_token st
    ⟨rest, [⟨method, BASE_URL ++ endpoint, payload,
             PlaytomicClient._get_headers st⟩]⟩ with ⟨res2, st2, w2⟩
  have hc2 := refresh_calls_eq st
    ⟨rest, [⟨method, BASE_URL ++ endpoint, payload, PlaytomicClient._get_headers st⟩]⟩
  rw [h2] at hc2
  simp only [] at hc2
  have hs2 := refresh_script_eq st
    ⟨rest, [⟨method, BASE_URL ++ endpoint, payload, PlaytomicClient._get_headers st⟩]⟩
  rw [h2] at hs2
  simp only [] at hs2
  cases res2 with
  | error e2 =>
    refine ⟨by simp [hc2], by simp [hc2], by simp [hc2], by simp [hc2],
            fun e he => ?_, fun hok => ?_⟩
    · simp only [] at he
      injection he with he'
      subst he'
      simp [hc2]
    · simp only [] at hok
      cases hok
  | ok u =>
    rcases h3 : PlaytomicClient._send_http_request (BASE_URL ++ endpoint) method payload
      (PlaytomicClient._get_headers st2) w2 with ⟨res3, w3⟩
    have e3 := send_http_eq (BASE_URL ++ endpoint) method payload
      (PlaytomicClient._get_headers st2) w2
    rw [h3] at e3
    have hc3 : w3.calls = w2.calls ++
        [⟨method, BASE_URL ++ endpoint, payload, PlaytomicClient._get_headers st2⟩] := by
      have := congrArg (fun p => (Prod.snd p).calls) e3
      simpa using this
    have hres3 := congrArg Prod.fst e3
    simp only [] at hres3
    rw [hs2, head?_drop_one] at hres3
    subst hres3
    cases hopt : rest.get? 1 with
    | none =>
      rw [hopt] at h3
      simp [attemptOutcome, hopt, h3, hc3, hc2]
    | some ev =>
      cases ev with
      | netFailure =>
        rw [hopt] at h3
        simp [attemptOutcome, hopt, h3, hc3, hc2]
      | response s3 b3 =>
        rw [hopt] at h3
        by_cases hr3 : 400 ≤ s3 ∧ s3 < 600
        · simp [attemptOutcome, hopt, h3, hc3, hc2, hr3]
        · simp [attemptOutcome, hopt, h3, hc3, hc2, hr3]


/-- Lemma: behaviour of `Client.send_request` (`src/client.py`) on a
first-attempt 401 with a truthy access token: exactly one refresh attempt, at
most three calls; refresh failure propagates after two calls; refresh success
with a truthy stored access token reissues exactly once with rebuilt headers
and returns the retry outcome; refresh success with a falsy stored access token
raises from `_get_headers` after two calls and never reissues. -/
theorem client_401_behavior (st : ClientState) (method endpoint : String)
    (payload : Option Json) (b : Json) (rest : List TransportEvent)
    (hT : tokenFalsy st.access_token = false) :
    (Client.send_request st method endpoint payload
        ⟨TransportEvent.response 401 b :: rest, []⟩).2.2.calls.get? 0 =
      some ⟨method, BASE_URL ++ endpoint, payload, PlaytomicClient._get_headers st⟩ ∧
    (Client.send_request st method endpoint payload
        ⟨TransportEvent.response 401 b :: rest, []⟩).2.2.calls.get? 1 =
      some ⟨"POST", BASE_URL ++ "/v3/auth/refresh",
            some (Json.obj [("refresh_token", optTokenToJson st.refresh_token)]),
            [("Content-Type", "application/json")]⟩ ∧
    (Client.send_request st method endpoint payload
        ⟨TransportEvent.response 401 b :: rest, []⟩).2.2.calls.length ≤ 3 ∧
    2 ≤ (Client.send_request st method endpoint payload
        ⟨TransportEvent.response 401 b :: rest, []⟩).2.2.calls.length ∧
    (∀ e, (PlaytomicClient._refresh_access_token st
        ⟨rest, [⟨method, BASE_URL ++ endpoint, payload,
                 PlaytomicClient._get_headers st⟩]⟩).1 = Except.error e →
      (Client.send_request st method endpoint payload
          ⟨TransportEvent.response 401 b :: rest, []⟩).1 = Except.error e ∧
      (Client.send_request st method endpoint payload
          ⟨TransportEvent.response 401 b :: rest, []⟩).2.2.calls.length = 2) ∧
    ((PlaytomicClient._refresh_access_token st
        ⟨rest, [⟨method, BASE_URL ++ endpoint, payload,
                 PlaytomicClient._get_headers st⟩]⟩).1 = Except.ok () →
      tokenFalsy (PlaytomicClient._refresh_access_token st
        ⟨rest, [⟨method, BASE_URL ++ endpoint, payload,
                 PlaytomicClient._get_headers st⟩]⟩).2.1.access_token = false →
      (Client.send_request st method endpoint payload
          ⟨TransportEvent.response 401 b :: rest, []⟩).2.2.calls.length = 3 ∧
      (Client.send_request st method endpoint payload
          ⟨TransportEvent.response 401 b :: rest, []⟩).2.1 =
        (PlaytomicClient._refresh_access_token st
          ⟨rest, [⟨method, BASE_URL ++ endpoint, payload,
                   PlaytomicClient._get_headers st⟩]⟩).2.1 ∧
      (Client.send_request st method endpoint payload
          ⟨TransportEvent.response 401 b :: rest, []⟩).2.2.calls.get? 2 =
        some ⟨method, BASE_URL ++ endpoint, payload,
              PlaytomicClient._get_headers
                ((PlaytomicClient._refresh_access_token st
                  ⟨rest, [⟨method, BASE_URL ++ endpoint, payload,
                           PlaytomicClient._get_headers st⟩]⟩).2.1)⟩ ∧
      (Client.send_request st method endpoint payload
          ⟨TransportEvent.response 401 b :: rest, []⟩).1 =
        attemptOutcome (rest.get? 1)) ∧
    ((PlaytomicClient._refresh_access_token st
        ⟨rest, [⟨method, BASE_URL ++ endpoint, payload,
                 PlaytomicClient._get_headers st⟩]⟩).1 = Except.ok () →
      tokenFalsy (PlaytomicClient._refresh_access_token st
        ⟨rest, [⟨method, BASE_URL ++ endpoint, payload,
                 PlaytomicClient._get_headers st⟩]⟩).2.1.access_token = true →
      (Client.send_request st method endpoint payload
          ⟨TransportEvent.response 401 b :: rest, []⟩).1 =
        Except.error (PyError.exception "Authentication token is missing") ∧
      (Client.send_request st method endpoint payload
          ⟨TransportEvent.response 401 b :: rest, []⟩).2.2.calls.length = 2 ∧
      (Client.send_request st method endpoint payload
          ⟨TransportEvent.response 401 b :: rest, []⟩).2.1 =
        (PlaytomicClient._refresh_access_token st
          ⟨rest, [⟨method, BASE_URL ++ endpoint, payload,
                   PlaytomicClient._get_headers st⟩]⟩).2.1) := by
  rw [client_send_401_eq st method endpoint payload b rest hT]
  rcases h2 : PlaytomicClient._refresh_access_token st
    ⟨rest, [⟨method, BASE_URL ++ endpoint, payload,
             PlaytomicClient._get_headers st⟩]⟩ with ⟨res2, st2, w2⟩
  have hc2 := refresh_calls_eq st
    ⟨rest, [⟨method, BASE_URL ++ endpoint, payload, PlaytomicClient._get_headers st⟩]⟩
  rw [h2] at hc2
  simp only [] at hc2
  have hs2 := refresh_script_eq st
    ⟨rest, [⟨method, BASE_URL ++ endpoint, payload, PlaytomicClient._get_headers st⟩]⟩
  rw [h2] at hs2
  simp only [] at hs2
  cases res2 with
  | error e2 =>
    refine ⟨by simp [hc2], by simp [hc2], by simp [hc2], by simp [hc2],
            fun e he => ?_, fun hok => ?_, fun hok => ?_⟩
    · simp only [] at he
      injection he with he'
      subst he'
      simp [hc2]
    · simp only [] at hok
      cases hok
    · simp only [] at hok
      cases hok
  | ok u =>
    cases hH : tokenFalsy st2.access_token with
    | true =>
      simp [client_get_headers_raises st2 hH, hH, hc2]
    | false =>
      have hH' := client_get_headers_ok st2 hH
      rcases h3 : PlaytomicClient._send_http_request (BASE_URL ++ endpoint) method payload
        (PlaytomicClient._get_headers st2) w2 with ⟨res3, w3⟩
      have e3 := send_http_eq (BASE_URL ++ endpoint) method payload
        (PlaytomicClient._get_headers st2) w2
      rw [h3] at e3
      have hc3 : w3.calls = w2.calls ++
          [⟨method, BASE_URL ++ endpoint, payload, PlaytomicClient._get_headers st2⟩] := by
        have := congrArg (fun p => (Prod.snd p).calls) e3
        simpa using this
      have hres3 := congrArg Prod.fst e3
      simp only [] at hres3
      rw [hs2, head?_drop_one] at hres3
      subst hres3
      cases hopt : rest.get? 1 with
      | none =>
        rw [hopt] at h3
        simp [attemptOutcome, hopt, h3, hH', hH, hc3, hc2]
      | some ev =>
        cases ev with
        | netFailure =>
          rw [hopt] at h3
          simp [attemptOutcome, hopt, h3, hH', hH, hc3, hc2]
        | response s3 b3 =>
          rw [hopt] at h3
          by_cases hr3 : 400 ≤ s3 ∧ s3 < 600
          · simp [attemptOutcome, hopt, h3, hH', hH, hc3, hc2, hr3]
          · simp [attemptOutcome, hopt, h3, hH', hH, hc3, hc2, hr3]

/-- C1 (amended): on a first-attempt 401 both `send_request` implementations
perform exactly one token refresh attempt (the second logged call is the
refresh POST) and issue at most three HTTP calls; if the refresh call itself
fails, that failure propagates after exactly two calls with no reissue. On
refresh success, `PlaytomicClient.send_request` (`src/api.py`) always reissues
the request exactly once with headers rebuilt from the refreshed state (three
calls total) and returns the retry outcome — success or any failure, including
another 401 — as is, with no further refresh or retry; `Client.send_request`
(`src/client.py`) does the same only when the refreshed access token is truthy,
and when it is falsy raises `Exception("Authentication token is missing")`
after two calls without reissuing. -/
theorem C1_401_single_refresh (st : ClientState) (method endpoint : String)
    (payload : Option Json) (b : Json) (rest : List TransportEvent) :
    (PlaytomicClient.send_request st method endpoint payload
        ⟨TransportEvent.response 401 b :: rest, []⟩).2.2.calls.get? 0 =
      some ⟨method, BASE_URL ++ endpoint, payload, PlaytomicClient._get_headers st⟩ ∧
    (PlaytomicClient.send_request st method endpoint payload
        ⟨TransportEvent.response 401 b :: rest, []⟩).2.2.calls.get? 1 =
      some ⟨"POST", BASE_URL ++ "/v3/auth/refresh",
            some (Json.obj [("refresh_token", optTokenToJson st.refresh_token)]),
            [("Content-Type", "application/json")]⟩ ∧
    (PlaytomicClient.send_request st method endpoint payload
        ⟨TransportEvent.response 401 b :: rest, []⟩).2.2.calls.length ≤ 3 ∧
    2 ≤ (PlaytomicClient.send_request st method endpoint payload
        ⟨TransportEvent.response 401 b :: rest, []⟩).2.2.calls.length ∧
    (∀ e, (PlaytomicClient._refresh_access_token st
        ⟨rest, [⟨method, BASE_URL ++ endpoint, payload,
                 PlaytomicClient._get_headers st⟩]⟩).1 = Except.error e →
      (PlaytomicClient.send_request st method endpoint payload
          ⟨TransportEvent.response 401 b :: rest, []⟩).1 = Except.error e ∧
      (PlaytomicClient.send_request st method endpoint payload
          ⟨TransportEvent.response 401 b :: rest, []⟩).2.2.calls.length = 2) ∧
    ((PlaytomicClient._refresh_access_token st
        ⟨rest, [⟨method, BASE_URL ++ endpoint, payload,
                 PlaytomicClient._get_headers st⟩]⟩).1 = Except.ok () →
      (PlaytomicClient.send_request st method endpoint payload
          ⟨TransportEvent.response 401 b :: rest, []⟩).2.2.calls.length = 3 ∧
      (PlaytomicClient.send_request st method endpoint payload
          ⟨TransportEvent.response 401 b :: rest, []⟩).2.1 =
        (PlaytomicClient._refresh_access_token st
          ⟨rest, [⟨method, BASE_URL ++ endpoint, payload,
                   PlaytomicClient._get_headers st⟩]⟩).2.1 ∧
      (PlaytomicClient.send_request st method endpoint payload
          ⟨TransportEvent.response 401 b :: rest, []⟩).2.2.calls.get? 2 =
        some ⟨method, BASE_URL ++ endpoint, payload,
              PlaytomicClient._get_headers
                ((PlaytomicClient._refresh_access_token st
                  ⟨rest, [⟨method, BASE_URL ++ endpoint, payload,
                           PlaytomicClient._get_headers st⟩]⟩).2.1)⟩ ∧
      (PlaytomicClient.send_request st method endpoint payload
          ⟨TransportEvent.response 401 b :: rest, []⟩).1 =
        attemptOutcome (rest.get? 1)) ∧
    (tokenFalsy st.access_token = false →
      (Client.send_request st method endpoint payload
          ⟨TransportEvent.response 401 b :: rest, []⟩).2.2.calls.get? 0 =
        some ⟨method, BASE_URL ++ endpoint, payload, PlaytomicClient._get_headers st⟩ ∧
      (Client.send_request st method endpoint payload
          ⟨TransportEvent.response 401 b :: rest, []⟩).2.2.calls.get? 1 =
        some ⟨"POST", BASE_URL ++ "/v3/auth/refresh",
              some (Json.obj [("refresh_token", optTokenToJson st.refresh_token)]),
              [("Content-Type", "application/json")]⟩ ∧
      (Client.send_request st method endpoint payload
          ⟨TransportEvent.response 401 b :: rest, []⟩).2.2.calls.length ≤ 3 ∧
      2 ≤ (Client.send_request st method endpoint payload
          ⟨TransportEvent.response 401 b :: rest, []⟩).2.2.calls.length ∧
      (∀ e, (PlaytomicClient._refresh_access_token st
          ⟨rest, [⟨method, BASE_URL ++ endpoint, payload,
                   PlaytomicClient._get_headers st⟩]⟩).1 = Except.error e →
        (Client.send_request st method endpoint payload
            ⟨TransportEvent.response 401 b :: rest, []⟩).1 = Except.error e ∧
        (Client.send_request st method endpoint payload
            ⟨TransportEvent.response 401 b :: rest, []⟩).2.2.calls.length = 2) ∧
      ((PlaytomicClient._refresh_access_token st
          ⟨rest, [⟨method, BASE_URL ++ endpoint, payload,
                   PlaytomicClient._get_headers st⟩]⟩).1 = Except.ok () →
        tokenFalsy (PlaytomicClient._refresh_access_token st
          ⟨rest, [⟨method, BASE_URL ++ endpoint, payload,
                   PlaytomicClient._get_headers st⟩]⟩).2.1.access_token = false →
        (Client.send_request st method endpoint payload
            ⟨TransportEvent.response 401 b :: rest, []⟩).2.2.calls.length = 3 ∧
        (Client.send_request st method endpoint payload
            ⟨TransportEvent.response 401 b :: rest, []⟩).2.1 =
          (PlaytomicClient._refresh_access_token st
            ⟨rest, [⟨method, BASE_URL ++ endpoint, payload,
                     PlaytomicClient._get_headers st⟩]⟩).2.1 ∧
        (Client.send_request st method endpoint payload
            ⟨TransportEvent.response 401 b :: rest, []⟩).2.2.calls.get? 2 =
          some ⟨method, BASE_URL ++ endpoint, payload,
                PlaytomicClient._get_headers
                  ((PlaytomicClient._refresh_access_token st
                    ⟨rest, [⟨method, BASE_URL ++ endpoint, payload,
                             PlaytomicClient._get_headers st⟩]⟩).2.1)⟩ ∧
        (Client.send_request st method endpoint payload
            ⟨TransportEvent.response 401 b :: rest, []⟩).1 =
          attemptOutcome (rest.get? 1)) ∧
      ((PlaytomicClient._refresh_access_token st
          ⟨rest, [⟨method, BASE_URL ++ endpoint, payload,
                   PlaytomicClient._get_headers st⟩]⟩).1 = Except.ok () →
        tokenFalsy (PlaytomicClient._refresh_access_token st
          ⟨rest, [⟨method, BASE_URL ++ endpoint, payload,
                   PlaytomicClient._get_headers st⟩]⟩).2.1.access_token = true →
        (Client.send_request st method endpoint payload
            ⟨TransportEvent.response 401 b :: rest, []⟩).1 =
          Except.error (PyError.exception "Authentication token is missing") ∧
        (Client.send_request st method endpoint payload
            ⟨TransportEvent.response 401 b :: rest, []⟩).2.2.calls.length = 2 ∧
        (Client.send_request st method endpoint payload
            ⟨TransportEvent.response 401 b :: rest, []⟩).2.1 =
          (PlaytomicClient._refresh_access_token st
            ⟨rest, [⟨method, BASE_URL ++ endpoint, payload,
                     PlaytomicClient._get_headers st⟩]⟩).2.1)) := by
  have A := api_401_behavior st method endpoint payload b rest
  exact ⟨A.1, A.2.1, A.2.2.1, A.2.2.2.1, A.2.2.2.2.1, A.2.2.2.2.2,
         fun hT => client_401_behavior st method endpoint payload b rest hT⟩

/-- Witness for C1 (amended): for `src/api.py`, a first-attempt 401 with a
successful refresh and a 200 retry on a concrete script; for `src/client.py`,
a first-attempt 401 with a refresh whose 200 body carries no tokens, after
which the missing-token exception propagates with exactly two calls. -/
theorem C1_witness :
    (PlaytomicClient.send_request ⟨"e", "p", some "t", some "r"⟩ "GET" "/w" none
        ⟨[TransportEvent.response 401 (Json.obj []),
          TransportEvent.response 200
            (Json.obj [("access_token", Json.str "a3"), ("refresh_token", Json.str "r3")]),
          TransportEvent.response 200 (Json.str "body2")], []⟩).2.2.calls.length = 3 ∧
    (PlaytomicClient.send_request ⟨"e", "p", some "t", some "r"⟩ "GET" "/w" none
        ⟨[TransportEvent.response 401 (Json.obj []),
          TransportEvent.response 200
            (Json.obj [("access_token", Json.str "a3"), ("refresh_token", Json.str "r3")]),
          TransportEvent.response 200 (Json.str "body2")], []⟩).1 =
      Except.ok (Json.str "body2") ∧
    (Client.send_request ⟨"e", "p", some "t", some "r"⟩ "GET" "/w" none
        ⟨[TransportEvent.response 401 (Json.obj []),
          TransportEvent.response 200 (Json.obj [])], []⟩).1 =
      Except.error (PyError.exception "Authentication token is missing") ∧
    (Client.send_request ⟨"e", "p", some "t", some "r"⟩ "GET" "/w" none
        ⟨[TransportEvent.response 401 (Json.obj []),
          TransportEvent.response 200 (Json.obj [])], []⟩).2.2.calls.length = 2 := by
  have H := C1_401_single_refresh ⟨"e", "p", some "t", some "r"⟩ "GET" "/w" none
    (Json.obj [])
    [TransportEvent.response 200
       (Json.obj [("access_token", Json.str "a3"), ("refresh_token", Json.str "r3")]),
     TransportEvent.response 200 (Json.str "body2")]
  have h6 := H.2.2.2.2.2.1 rfl
  have H2 := C1_401_single_refresh ⟨"e", "p", some "t", some "r"⟩ "GET" "/w" none
    (Json.obj []) [TransportEvent.response 200 (Json.obj [])]
  have h7 := (H2.2.2.2.2.2.2 (by decide)).2.2.2.2.2.2 rfl rfl
  exact ⟨h6.1, h6.2.2.2.trans rfl, h7.1, h7.2.1⟩

end Playtomic
